import Mathlib

/-!
Verification development for the DealAgent repository (deal scraping and
price-alert core). Definitions are shallow embeddings of the Python source
in `scraper.py` and `app.py`; prices are modelled as rationals and Python
`int()` truncation is modelled explicitly.
-/

namespace DealAgent

/-- A normalized Deal record, as the dictionaries built by the retailer
extractors in `scraper.py` (keys `retailer`, `product_name`, `price`,
`original_price`, `discount_percentage`, `url`, `availability`,
`deal_quality`). -/
structure Deal where
  retailer : String
  product_name : String
  price : ℚ
  original_price : ℚ
  discount_percentage : ℤ
  url : String
  availability : String
  deal_quality : String
deriving DecidableEq, Repr

/-- Python `int()` applied to a float/rational: truncation toward zero. -/
def pyInt (q : ℚ) : ℤ := if 0 ≤ q then ⌊q⌋ else ⌈q⌉

/-- The shared deal-quality tiering appearing verbatim in `search_amazon`,
`_parse_walmart_next_data` and `search_bestbuy`:
`"Excellent"` for discount ≥ 30, `"Good"` for ≥ 15, else `"Fair"`. -/
def deal_quality_of (discount_percentage : ℤ) : String :=
  if discount_percentage ≥ 30 then "Excellent"
  else if discount_percentage ≥ 15 then "Good"
  else "Fair"

/-- Per-item extraction of `search_amazon` (scraper.py lines 264-332), after
the HTML fields have been read off the product card: `price` is the parsed
`a-price-whole` text (items whose price is absent or unparsable are skipped
before this point), `originalParsed` is `some v` when the `a-offscreen`
original-price text is present and `float()` parses it to `v`, `none` when
the text is missing or unparsable (in which case the code keeps
`original_price = price`), and `unavailable` records whether the
out-of-stock keyword scan matched. -/
def amazonExtractItem (title : String) (price : ℚ) (originalParsed : Option ℚ)
    (url : String) (unavailable : Bool) : Deal :=
  let original_price : ℚ := match originalParsed with
    | some v => v
    | none => price
  let discount_percentage : ℤ :=
    if original_price > price then
      pyInt ((original_price - price) / original_price * 100)
    else 0
  { retailer := "Amazon"
    product_name := title.take 100
    price := price
    original_price := original_price
    discount_percentage := discount_percentage
    url := url
    availability := if unavailable then "Out of Stock" else "In Stock"
    deal_quality := deal_quality_of discount_percentage }

/-- Per-item extraction of `search_bestbuy` (scraper.py lines 559-616), same
field conventions as `amazonExtractItem`: `originalParsed` is `some v` when
the original-price span is present, its stripped text nonempty and `float()`
parses it to `v`; otherwise the code keeps `original_price = price`. -/
def bestbuyExtractItem (title : String) (price : ℚ) (originalParsed : Option ℚ)
    (url : String) (unavailable : Bool) : Deal :=
  let original_price : ℚ := match originalParsed with
    | some v => v
    | none => price
  let discount_percentage : ℤ :=
    if original_price > price then
      pyInt ((original_price - price) / original_price * 100)
    else 0
  { retailer := "Best Buy"
    product_name := title.take 100
    price := price
    original_price := original_price
    discount_percentage := discount_percentage
    url := url
    availability := if unavailable then "Out of Stock" else "In Stock"
    deal_quality := deal_quality_of discount_percentage }

/-- `_parse_walmart_next_data` (scraper.py lines 419-494) after the JSON
fields have been read: `price` is the parsed `priceInfo.currentPrice` value
(defaulting to 0), `wasPrice` the `priceInfo.wasPrice.price` value with the
dictionary default 0. The source guards `if was_price and was_price > price`
before replacing the original price, and requires `price > 0` in the
discount computation. -/
def walmartParseNextData (name : String) (price : ℚ) (wasPrice : ℚ)
    (url : String) (unavailable : Bool) : Deal :=
  let original_price : ℚ :=
    if wasPrice ≠ 0 ∧ wasPrice > price then wasPrice else price
  let discount_percentage : ℤ :=
    if original_price > price ∧ price > 0 then
      pyInt ((original_price - price) / original_price * 100)
    else 0
  { retailer := "Walmart"
    product_name := name.take 100
    price := price
    original_price := original_price
    discount_percentage := discount_percentage
    url := url
    availability := if unavailable then "Out of Stock" else "In Stock"
    deal_quality := deal_quality_of discount_percentage }

/-- The discount formula asserted by the specification: rounded percentage
when the original price is positive, else 0. -/
def specDiscount (price original_price : ℚ) : ℤ :=
  if original_price > 0 then
    round (100 * (original_price - price) / original_price)
  else 0

/-- The discount formula the source actually computes (Amazon and Best Buy
variant): `int()`-truncated percentage when `original_price > price`,
else 0. -/
def truncDiscount (price original_price : ℚ) : ℤ :=
  if original_price > price then
    pyInt ((original_price - price) / original_price * 100)
  else 0

/-- The Walmart variant of the truncated discount formula, which also
requires `price > 0`. -/
def truncDiscountPos (price original_price : ℚ) : ℤ :=
  if original_price > price ∧ price > 0 then
    pyInt ((original_price - price) / original_price * 100)
  else 0

/-- The deal-collection loop of `search_all_retailers` (scraper.py lines
637-646): each retailer's search is wrapped in try/except — a raised
exception is logged and skipped — and the returned entries are filtered by
`d is not None`. Each retailer's outcome is modelled as
`Except String (List (Option Deal))`: `.error` for a raised exception,
`.ok` for the returned list (entries may be `none` on some Walmart
fallback paths). -/
def collectDeals : List (Except String (List (Option Deal))) → List Deal
  | [] => []
  | .ok ds :: rest => ds.filterMap id ++ collectDeals rest
  | .error _ :: rest => collectDeals rest

/-- `search_all_retailers` (scraper.py lines 628-651): collect per-retailer
results, then `all_deals.sort(key=lambda x: x['price'])` — modelled by a
stable merge sort on the price key. -/
def search_all_retailers (results : List (Except String (List (Option Deal)))) : List Deal :=
  (collectDeals results).mergeSort (fun a b => decide (a.price ≤ b.price))

/-- The parsed timing-analysis JSON object used by `check_all_products`
(app.py lines 302-306); `analyze_deal_timing` returns it or `None`. -/
structure TimingAnalysis where
  recommendation : String
  confidence : String
  reasoning : String
deriving DecidableEq, Repr

/-- A row inserted into `price_history` by `add_price_record`. -/
structure PriceRecord where
  retailer : String
  price : ℚ
  url : String
deriving DecidableEq, Repr

/-- A row inserted into `alerts` by `create_alert`. -/
structure AlertRecord where
  alert_type : String
  message : String
deriving DecidableEq, Repr

/-- Rounding to integer cents, modelling the rounding of Python's `:.2f`
float format (round half to even). -/
def round2c (q : ℚ) : ℤ :=
  let x := q * 100
  let f := ⌊x⌋
  if x - f < 1 / 2 then f
  else if 1 / 2 < x - f then f + 1
  else if f % 2 = 0 then f else f + 1

/-- Python's `f"{q:.2f}"` two-decimal price formatting. -/
def format_2f (q : ℚ) : String :=
  let c := round2c q
  let a := c.natAbs
  (if c < 0 then "-" else "") ++ toString (a / 100) ++ "." ++
    (if a % 100 < 10 then "0" else "") ++ toString (a % 100)

/-- The price-alert f-string of app.py line 299. -/
def priceAlertMessage (product_name : String) (price target_price : ℚ)
    (retailer : String) : String :=
  "🎉 Price Alert! " ++ product_name ++ " is now $" ++ format_2f price ++
    " at " ++ retailer ++ " (Target: $" ++ format_2f target_price ++ ")"

/-- The timing-alert f-string of app.py line 305. -/
def timingAlertMessage (product_name reasoning : String) : String :=
  "⏳ Timing Alert! Consider waiting for " ++ product_name ++ ". " ++ reasoning

/-- Python's `min(deals, key=lambda x: x['price'])`: the first deal with
minimal price. -/
def pyMinByPrice (d : Deal) (ds : List Deal) : Deal :=
  ds.foldl (fun b x => if x.price < b.price then x else b) d

/-- The per-product body of `check_all_products` (app.py lines 286-306):
given the deals returned by the search and the (already parsed) timing
analysis, produce the price-history rows and alert rows it inserts. -/
def checkProduct (product_name : String) (target_price : ℚ) (deals : List Deal)
    (analysis : Option TimingAnalysis) : List PriceRecord × List AlertRecord :=
  match deals with
  | [] => ([], [])
  | d :: ds =>
    let best_deal := pyMinByPrice d ds
    let records : List PriceRecord :=
      [⟨best_deal.retailer, best_deal.price, best_deal.url⟩]
    let price_alerts : List AlertRecord :=
      if best_deal.price ≤ target_price then
        [⟨"price_alert",
          priceAlertMessage product_name best_deal.price target_price best_deal.retailer⟩]
      else []
    let timing_alerts : List AlertRecord :=
      match analysis with
      | some a =>
        if a.recommendation = "wait" ∧ a.confidence = "high" then
          [⟨"timing_alert", timingAlertMessage product_name a.reasoning⟩]
        else []
      | none => []
    (records, price_alerts ++ timing_alerts)

/-- Outcome of the generator path of `search_deals_with_ai`:
`jsonDecodeError` for a `json.JSONDecodeError` raised while parsing the
collaborator's payload, `otherError` for any other exception. -/
inductive GenFailure where
  | jsonDecodeError
  | otherError (msg : String)
deriving DecidableEq, Repr

/-- `search_deals_with_ai` (app.py lines 173-229): `scrape` is the outcome
of `scrape_product_deals` (`.error` = raised exception), `gen` the outcome
of the text-generation call plus `parse_json_response`. Returns the deal
list handed to the caller, paired with whether the generator path ran.
The source returns the scraped list when it is non-empty, otherwise falls
through to the generator; both generator `except` branches return `[]`. -/
def search_deals_with_ai (scrapingEnabled : Bool)
    (scrape : Except String (List Deal)) (gen : Except GenFailure (List Deal)) :
    List Deal × Bool :=
  let aiPath : List Deal × Bool :=
    match gen with
    | .ok ds => (ds, true)
    | .error _ => ([], true)
  if scrapingEnabled then
    match scrape with
    | .ok real_deals =>
      if real_deals.length > 0 then (real_deals, false) else aiPath
    | .error _ => aiPath
  else aiPath

/-- The class-level driver slot of `DealScraper` plus a count of
construction attempts made so far (used to index the construction
environment). -/
structure SessionState where
  driver : Option Nat
  constructions : Nat
deriving DecidableEq, Repr

/-- The process-start state: `DealScraper._driver = None`. -/
def initialSession : SessionState := ⟨none, 0⟩

/-- Outcome of one `driver.get(url)` navigation in `_make_http_call`:
a rendered page, a `WebDriverException` whose message indicates a dead
session ("invalid session id" / "chrome not reachable"), any other
`WebDriverException`, or a non-WebDriver exception. -/
inductive NavResult where
  | page (content : String)
  | deadSessionError
  | webDriverError
  | otherException
deriving DecidableEq, Repr

/-- `_get_chrome_driver` (scraper.py lines 84-138): if the class-level
driver is `None`, attempt construction (outcome given by the environment
`construct`, indexed by attempt number); on failure the slot is set back to
`None`. Returns the updated state and `DealScraper._driver`. -/
def _get_chrome_driver (construct : Nat → Option Nat) (s : SessionState) :
    SessionState × Option Nat :=
  match s.driver with
  | some d => (s, some d)
  | none =>
    match construct s.constructions with
    | some d => (⟨some d, s.constructions + 1⟩, some d)
    | none => (⟨none, s.constructions + 1⟩, none)

/-- The retry loop of `_make_http_call` (scraper.py lines 167-204), with
`fuel = max_retries - retry_count` and `navIdx` indexing the navigation
environment. A `None` driver returns failure immediately; a dead-session
error tears the driver down before the next attempt; any other
`WebDriverException` retries with the driver kept; a non-WebDriver
exception returns failure immediately. -/
def _make_http_call_loop (construct : Nat → Option Nat) (nav : Nat → NavResult) :
    Nat → Nat → SessionState → SessionState × Option String
  | 0, _, s => (s, none)
  | fuel + 1, navIdx, s =>
    match _get_chrome_driver construct s with
    | (s1, none) => (s1, none)
    | (s1, some _) =>
      match nav navIdx with
      | .page content => (s1, some content)
      | .deadSessionError =>
        _make_http_call_loop construct nav fuel (navIdx + 1) ⟨none, s1.constructions⟩
      | .webDriverError => _make_http_call_loop construct nav fuel (navIdx + 1) s1
      | .otherException => (s1, none)

/-- `_make_http_call` (scraper.py lines 152-204) with `max_retries = 3`. -/
def _make_http_call (construct : Nat → Option Nat) (nav : Nat → NavResult)
    (s : SessionState) : SessionState × Option String :=
  _make_http_call_loop construct nav 3 0 s

/-- JSON values, the result type of the external `json.loads`
collaborator. -/
inductive Json where
  | null
  | bool (b : Bool)
  | num (n : ℤ)
  | str (s : String)
  | arr (elems : List Json)
  | obj (fields : List (String × Json))

/-- Python `str.strip()` whitespace set. -/
def pyWs (c : Char) : Bool :=
  c == ' ' || c == '\t' || c == '\n' || c == '\r' || c == '\x0B' || c == '\x0C'

/-- Python `str.strip()`: drop whitespace from both ends. -/
def pyStrip (l : List Char) : List Char :=
  ((l.dropWhile pyWs).reverse.dropWhile pyWs).reverse

/-- The markdown-fence stripping of `parse_json_response` (app.py lines
54-69): strip, drop a leading "```json" (7 chars) or else a leading "```"
(3 chars), drop a trailing "```", strip again. -/
def stripCodeFences (l : List Char) : List Char :=
  let j0 := pyStrip l
  let j1 :=
    if ("```json".data).isPrefixOf j0 then j0.drop 7
    else if ("```".data).isPrefixOf j0 then j0.drop 3
    else j0
  let j2 := if ("```".data).isSuffixOf j1 then j1.take (j1.length - 3) else j1
  pyStrip j2

/-- `parse_json_response` (app.py lines 54-71): fence stripping followed by
the external `json.loads`, which is passed in as the collaborator
`loads`. -/
def parse_json_response (loads : List Char → Option Json) (s : List Char) :
    Option Json :=
  loads (stripCodeFences s)

/-- The backtick character U+0060, the fence delimiter. -/
def backtick : Char := Char.ofNat 96

/-- The fenced wrapper of the claim: the serialized payload surrounded by a
markdown code fence, i.e. three backticks, a newline, the payload, a
newline, three backticks. -/
def fenceWrap (s : List Char) : List Char :=
  backtick :: backtick :: backtick :: '\n' :: (s ++ ['\n', backtick, backtick, backtick])

/-- The json-tagged fenced wrapper of the claim: three backticks and the
tag `json`, a newline, the payload, a newline, three backticks. -/
def jsonFenceWrap (s : List Char) : List Char :=
  backtick :: backtick :: backtick :: 'j' :: 's' :: 'o' :: 'n' :: '\n' ::
    (s ++ ['\n', backtick, backtick, backtick])

/-- C1 counterexample: the Amazon extractor applied to a card with current
price 1 and original-price text parsing to 3 produces
`discount_percentage = 66` (Python `int()` truncation of 200/3), while the
claimed formula `round(100*(original_price-price)/original_price)` gives 67,
so the claim as stated is false on the code. -/
theorem c1_rounding_counterexample :
    (amazonExtractItem "Widget" 1 (some 3) "url" false).discount_percentage ≠
      specDiscount (amazonExtractItem "Widget" 1 (some 3) "url" false).price
        (amazonExtractItem "Widget" 1 (some 3) "url" false).original_price := by
  have h1 : (amazonExtractItem "Widget" 1 (some 3) "url" false).discount_percentage = 66 := by
    norm_num [amazonExtractItem, pyInt]
  have h2 : specDiscount (amazonExtractItem "Widget" 1 (some 3) "url" false).price
      (amazonExtractItem "Widget" 1 (some 3) "url" false).original_price = 67 := by
    norm_num [amazonExtractItem, specDiscount, round_eq]
  rw [h1, h2]
  decide

/-- C1 amended: for every Deal produced by the retailer extractors,
`discount_percentage` is the Python `int()` truncation of
`100*(original_price-price)/original_price` when `original_price > price`
(the Walmart extractor additionally requires `price > 0`), and 0
otherwise. -/
theorem c1_discount_is_truncation (title url : String) (price wasPrice : ℚ)
    (originalParsed : Option ℚ) (unav : Bool) :
    (amazonExtractItem title price originalParsed url unav).discount_percentage
        = truncDiscount price
            (amazonExtractItem title price originalParsed url unav).original_price
    ∧ (bestbuyExtractItem title price originalParsed url unav).discount_percentage
        = truncDiscount price
            (bestbuyExtractItem title price originalParsed url unav).original_price
    ∧ (walmartParseNextData title price wasPrice url unav).discount_percentage
        = truncDiscountPos price
            (walmartParseNextData title price wasPrice url unav).original_price := by
  refine ⟨?_, ?_, ?_⟩ <;>
    cases originalParsed <;>
      simp [amazonExtractItem, bestbuyExtractItem, walmartParseNextData,
        truncDiscount, truncDiscountPos]

/-- C2 counterexample: an Amazon card whose current price is 100 but whose
original-price text parses to 50 yields a Deal with
`original_price = 50 < 100 = price`, violating the claimed invariant
`original_price ≥ price`. -/
theorem c2_invariant_counterexample :
    ¬ ((amazonExtractItem "Laptop" 100 (some 50) "url" false).price ≤
        (amazonExtractItem "Laptop" 100 (some 50) "url" false).original_price) := by
  norm_num [amazonExtractItem]

/-- C2 amended: the Walmart extractor always satisfies
`original_price ≥ price`; the Amazon and Best Buy extractors satisfy it
exactly when the page's parsed original-price value (if present) is at
least the current price, since they adopt that value unconditionally. -/
theorem c2_invariant_conditional (title url : String) (price wasPrice : ℚ)
    (originalParsed : Option ℚ) (unav : Bool) :
    (walmartParseNextData title price wasPrice url unav).price ≤
        (walmartParseNextData title price wasPrice url unav).original_price
    ∧ ((∀ v, originalParsed = some v → price ≤ v) →
        (amazonExtractItem title price originalParsed url unav).price ≤
          (amazonExtractItem title price originalParsed url unav).original_price)
    ∧ ((∀ v, originalParsed = some v → price ≤ v) →
        (bestbuyExtractItem title price originalParsed url unav).price ≤
          (bestbuyExtractItem title price originalParsed url unav).original_price) := by
  refine ⟨?_, ?_, ?_⟩
  · simp only [walmartParseNextData]
    split
    · next h => exact le_of_lt h.2
    · exact le_refl _
  · intro h
    cases originalParsed with
    | none => simp [amazonExtractItem]
    | some v => simpa [amazonExtractItem] using h v rfl
  · intro h
    cases originalParsed with
    | none => simp [bestbuyExtractItem]
    | some v => simpa [bestbuyExtractItem] using h v rfl

/-- Witness for `c2_invariant_conditional` at a concrete input with
original price 150 above current price 100. -/
theorem c2_invariant_conditional_witness :
    (walmartParseNextData "TV" 100 150 "u" false).price ≤
        (walmartParseNextData "TV" 100 150 "u" false).original_price
    ∧ (amazonExtractItem "TV" 100 (some 150) "u" false).price ≤
        (amazonExtractItem "TV" 100 (some 150) "u" false).original_price
    ∧ (bestbuyExtractItem "TV" 100 (some 150) "u" false).price ≤
        (bestbuyExtractItem "TV" 100 (some 150) "u" false).original_price := by
  have h := c2_invariant_conditional "TV" "u" 100 150 (some 150) false
  refine ⟨h.1, h.2.1 ?_, h.2.2 ?_⟩ <;>
    · intro v hv
      cases hv
      norm_num

/-- C5: the Deal Aggregator's output is sorted ascending by price for every
input (whatever each retailer returned or raised). -/
theorem c5_aggregator_sorted (results : List (Except String (List (Option Deal)))) :
    (search_all_retailers results).Sorted (fun a b => a.price ≤ b.price) := by
  have h := @List.sorted_mergeSort Deal
    (fun a b : Deal => decide (a.price ≤ b.price))
    (fun a b c hab hbc => by
      simp only [decide_eq_true_eq] at *
      exact le_trans hab hbc)
    (fun a b => by
      simp only [Bool.or_eq_true, decide_eq_true_eq]
      exact le_total a.price b.price)
    (collectDeals results)
  exact h.imp (fun hab => of_decide_eq_true hab)

/-- Helper: every non-`none` deal of a successfully returned retailer list
survives the collection loop. -/
theorem mem_collectDeals {results : List (Except String (List (Option Deal)))}
    {l : List (Option Deal)} {d : Deal}
    (hres : Except.ok l ∈ results) (hd : some d ∈ l) :
    d ∈ collectDeals results := by
  induction results with
  | nil => cases hres
  | cons r rest ih =>
    rcases List.mem_cons.mp hres with h | h
    · subst h
      simp only [collectDeals]
      exact List.mem_append_left _ (List.mem_filterMap.mpr ⟨some d, hd, rfl⟩)
    · cases r with
      | ok ds =>
        simp only [collectDeals]
        exact List.mem_append_right _ (ih h)
      | error e =>
        simpa only [collectDeals] using ih h

/-- C9: if some retailer's search raised, the deals returned by any other
retailer still appear in the aggregator's final sorted result. -/
theorem c9_retailer_failure_isolated
    (results : List (Except String (List (Option Deal))))
    (i j : Nat) (l : List (Option Deal)) (e : String) (d : Deal)
    (_hj : results.get? j = some (.error e))
    (hi : results.get? i = some (.ok l))
    (hd : some d ∈ l) :
    d ∈ search_all_retailers results := by
  have hmem : Except.ok l ∈ results := List.get?_mem hi
  unfold search_all_retailers
  rw [List.mem_mergeSort]
  exact mem_collectDeals hmem hd

/-- Witness for `c9_retailer_failure_isolated`: with Amazon raising and Best
Buy returning one deal, that deal is in the final result. -/
theorem c9_retailer_failure_isolated_witness :
    (⟨"Best Buy", "X", 799, 999, 20, "u", "In Stock", "Good"⟩ : Deal) ∈
      search_all_retailers
        [.error "boom", .ok [some ⟨"Best Buy", "X", 799, 999, 20, "u", "In Stock", "Good"⟩]] :=
  c9_retailer_failure_isolated _ 1 0 _ "boom" _ rfl rfl (List.mem_singleton.mpr rfl)

/-- C3: in one Price Poller step with a non-empty deal list, the price
alerts created are exactly one alert when the cheapest deal's price is at
or below the target (none otherwise), and its message contains the cheapest
price formatted with two decimals and that deal's retailer name. -/
theorem c3_price_alert_policy (name : String) (target : ℚ) (d : Deal)
    (ds : List Deal) (analysis : Option TimingAnalysis) :
    (checkProduct name target (d :: ds) analysis).2.filter
        (fun a => a.alert_type == "price_alert")
      = (if (pyMinByPrice d ds).price ≤ target then
          [⟨"price_alert",
            priceAlertMessage name (pyMinByPrice d ds).price target
              (pyMinByPrice d ds).retailer⟩]
        else [])
    ∧ ∃ s₁ s₂ s₃,
        priceAlertMessage name (pyMinByPrice d ds).price target
            (pyMinByPrice d ds).retailer
          = s₁ ++ format_2f (pyMinByPrice d ds).price ++ s₂ ++
              (pyMinByPrice d ds).retailer ++ s₃ := by
  constructor
  · rcases analysis with _ | a <;> simp only [checkProduct] <;> split_ifs <;> rfl
  · exact ⟨"🎉 Price Alert! " ++ name ++ " is now $", " at ",
      " (Target: $" ++ format_2f target ++ ")",
      by simp [priceAlertMessage, String.append_assoc]⟩

/-- C6: in one Price Poller step with a non-empty deal list, exactly one
timing alert is created iff the timing analysis is present with
recommendation "wait" and confidence "high"; in every other case (including
a missing analysis) none is created. -/
theorem c6_timing_alert_policy (name : String) (target : ℚ) (d : Deal)
    (ds : List Deal) (analysis : Option TimingAnalysis) :
    ((checkProduct name target (d :: ds) analysis).2.countP
        (fun a => a.alert_type == "timing_alert") = 1
      ↔ ∃ a, analysis = some a ∧ a.recommendation = "wait" ∧ a.confidence = "high")
    ∧ ((checkProduct name target (d :: ds) analysis).2.countP
        (fun a => a.alert_type == "timing_alert") = 0
      ↔ ¬ ∃ a, analysis = some a ∧ a.recommendation = "wait" ∧ a.confidence = "high") := by
  have hcount : (checkProduct name target (d :: ds) analysis).2.countP
      (fun a => a.alert_type == "timing_alert")
      = match analysis with
        | some a =>
          if a.recommendation = "wait" ∧ a.confidence = "high" then 1 else 0
        | none => 0 := by
    rcases analysis with _ | a <;> simp only [checkProduct] <;> split_ifs <;> rfl
  rw [hcount]
  rcases analysis with _ | a
  · simp
  · by_cases h : a.recommendation = "wait" ∧ a.confidence = "high"
    · simp [h]
    · simp only [if_neg h]
      constructor
      · simp [h]
      · simp [h]

/-- C4: with scraping enabled, the generator path runs only when the live
scrape returned an empty list or raised; when the live scrape returned a
non-empty list, that exact list is returned and the generator never
runs. -/
theorem c4_generator_only_on_empty_or_error (scrape : Except String (List Deal))
    (gen : Except GenFailure (List Deal)) :
    ((search_deals_with_ai true scrape gen).2 = true →
        scrape = .ok [] ∨ ∃ e, scrape = .error e)
    ∧ (∀ d ds, scrape = .ok (d :: ds) →
        search_deals_with_ai true scrape gen = (d :: ds, false)) := by
  constructor
  · intro h
    rcases scrape with e | l
    · exact Or.inr ⟨e, rfl⟩
    · rcases l with _ | ⟨d, ds⟩
      · exact Or.inl rfl
      · exfalso
        simp [search_deals_with_ai] at h
  · rintro d ds rfl
    simp [search_deals_with_ai]

/-- Witness for `c4_generator_only_on_empty_or_error`: a one-deal scrape is
returned unchanged with the generator unused, and for an empty scrape the
theorem's first part applies. -/
theorem c4_generator_only_on_empty_or_error_witness :
    search_deals_with_ai true
        (.ok [⟨"Amazon", "X", 799, 999, 20, "u", "In Stock", "Good"⟩])
        (.error .jsonDecodeError)
      = ([⟨"Amazon", "X", 799, 999, 20, "u", "In Stock", "Good"⟩], false)
    ∧ ((.ok [] : Except String (List Deal)) = .ok []
        ∨ ∃ e, (.ok [] : Except String (List Deal)) = .error e) := by
  constructor
  · exact (c4_generator_only_on_empty_or_error _ (.error .jsonDecodeError)).2 _ [] rfl
  · exact (c4_generator_only_on_empty_or_error (.ok []) (.ok [])).1 rfl

/-- C7 counterexample: when the generator payload fails to parse the search
returns `([], generator ran)`, exactly the value produced when the
generator parses to an empty list — the caller receives no typed failure
distinct from "no results". -/
theorem c7_no_typed_parse_failure_counterexample :
    search_deals_with_ai true (.ok []) (.error .jsonDecodeError) = ([], true)
    ∧ search_deals_with_ai true (.ok []) (.ok []) = ([], true) :=
  ⟨rfl, rfl⟩

/-- C7 amended: whenever the fallback path runs and the generator's payload
raises (a JSON decode error or any other exception), `search_deals_with_ai`
returns the empty list — indistinguishable from absence of deals. -/
theorem c7_parse_failure_returns_empty (e : GenFailure)
    (scrape : Except String (List Deal))
    (h : scrape = .ok [] ∨ ∃ s, scrape = .error s) :
    search_deals_with_ai true scrape (.error e) = ([], true) := by
  rcases h with rfl | ⟨s, rfl⟩ <;> simp [search_deals_with_ai]

/-- Witness for `c7_parse_failure_returns_empty` at an empty scrape and a
JSON decode failure. -/
theorem c7_parse_failure_returns_empty_witness :
    search_deals_with_ai true (.ok []) (.error .jsonDecodeError) = ([], true) :=
  c7_parse_failure_returns_empty .jsonDecodeError (.ok []) (Or.inl rfl)

/-- C8 counterexample: with a constructor that always fails, the first
fetch makes one construction attempt and fails; the second fetch makes a
second construction attempt (the count rises from 1 to 2) before failing —
there is no Broken state preventing reconstruction. -/
theorem c8_construction_storm_counterexample :
    (_make_http_call (fun _ => none) (fun _ => .page "html") initialSession).1.constructions = 1
    ∧ (_make_http_call (fun _ => none) (fun _ => .page "html")
        (_make_http_call (fun _ => none) (fun _ => .page "html") initialSession).1).1.constructions = 2
    ∧ (_make_http_call (fun _ => none) (fun _ => .page "html")
        (_make_http_call (fun _ => none) (fun _ => .page "html") initialSession).1).2 = none :=
  ⟨rfl, rfl, rfl⟩

/-- C8 amended: after a failed construction the driver slot stays `None`
(the state is merely Uninitialized, not Broken); every fetch arriving with
no driver makes exactly one fresh construction attempt and, if it fails,
returns Failure immediately. -/
theorem c8_failed_construction_retried_per_call (construct : Nat → Option Nat)
    (nav : Nat → NavResult) (s : SessionState)
    (hdriver : s.driver = none) (hfail : construct s.constructions = none) :
    _make_http_call construct nav s = (⟨none, s.constructions + 1⟩, none) := by
  obtain ⟨drv, c⟩ := s
  simp only at hdriver hfail
  subst hdriver
  simp [_make_http_call, _make_http_call_loop, _get_chrome_driver, hfail]

/-- Witness for `c8_failed_construction_retried_per_call` from the initial
state with an always-failing constructor. -/
theorem c8_failed_construction_retried_per_call_witness :
    _make_http_call (fun _ => none) (fun _ => .page "html") initialSession
      = (⟨none, 1⟩, none) :=
  c8_failed_construction_retried_per_call (fun _ => none) (fun _ => .page "html")
    initialSession rfl rfl

/-- Helper: `dropWhile` is the identity on a list whose head is not
whitespace. -/
theorem dropWhile_pyWs_eq_self {l : List Char}
    (h : ∀ c, l.head? = some c → pyWs c = false) : l.dropWhile pyWs = l := by
  cases l with
  | nil => rfl
  | cons c t =>
    have hc := h c rfl
    rw [List.dropWhile_cons]
    simp [hc]

/-- Helper: `pyStrip` is the identity on a list with non-whitespace ends. -/
theorem pyStrip_eq_self {l : List Char}
    (hhead : ∀ c, l.head? = some c → pyWs c = false)
    (hlast : ∀ c, l.getLast? = some c → pyWs c = false) : pyStrip l = l := by
  unfold pyStrip
  rw [dropWhile_pyWs_eq_self hhead]
  rw [dropWhile_pyWs_eq_self
    (fun c hc => hlast c (by rwa [List.head?_reverse] at hc))]
  exact List.reverse_reverse l

/-- Helper: `pyStrip` ignores an all-whitespace prefix and suffix. -/
theorem pyStrip_ws_wrap {ws1 ws2 l : List Char}
    (h1 : ∀ c ∈ ws1, pyWs c = true) (h2 : ∀ c ∈ ws2, pyWs c = true) :
    pyStrip (ws1 ++ l ++ ws2) = pyStrip l := by
  unfold pyStrip
  rw [List.append_assoc, List.dropWhile_append_of_pos h1, List.dropWhile_append]
  by_cases hl : (l.dropWhile pyWs).isEmpty
  · rw [if_pos hl]
    have h2' : ws2.dropWhile pyWs = [] := List.dropWhile_eq_nil_iff.mpr h2
    have hl' : l.dropWhile pyWs = [] := by simpa [List.isEmpty_iff] using hl
    rw [h2', hl']
  · rw [if_neg hl, List.reverse_append,
      List.dropWhile_append_of_pos (fun c hc => h2 c (List.mem_reverse.mp hc))]

/-- Helper: a pattern starting with a backtick is no prefix of a list whose
head is not a backtick. -/
theorem isPrefixOf_backtick_false {s rest : List Char} (hne : s ≠ [])
    (hhead : ∀ c, s.head? = some c → c ≠ backtick) :
    ((backtick :: rest).isPrefixOf s) = false := by
  cases s with
  | nil => cases hne rfl
  | cons c t =>
    have hc : (backtick == c) = false :=
      beq_eq_false_iff_ne.mpr (fun h => hhead c rfl h.symm)
    simp [List.isPrefixOf, hc]

/-- Helper: the closing fence is no suffix of a list whose last character is
not a backtick. -/
theorem isSuffixOf_fence_false {s : List Char} (hne : s ≠ [])
    (hlast : ∀ c, s.getLast? = some c → c ≠ backtick) :
    (("```".data).isSuffixOf s) = false := by
  have hrev : s.reverse ≠ [] := by simpa using hne
  have hh : ∀ c, s.reverse.head? = some c → c ≠ backtick :=
    fun c hc => hlast c (by rwa [List.head?_reverse] at hc)
  show (("```".data).reverse.isPrefixOf s.reverse) = false
  rw [show ("```".data).reverse = backtick :: [backtick, backtick] from rfl]
  exact isPrefixOf_backtick_false hrev hh

/-- Helper: fence stripping only sees surrounding whitespace through the
initial strip, so it can be discarded. -/
theorem stripCodeFences_ws_wrap {ws1 ws2 l : List Char}
    (h1 : ∀ c ∈ ws1, pyWs c = true) (h2 : ∀ c ∈ ws2, pyWs c = true) :
    stripCodeFences (ws1 ++ l ++ ws2) = stripCodeFences l := by
  simp only [stripCodeFences, pyStrip_ws_wrap h1 h2]

/-- Helper: fence stripping is the identity on a payload with no leading or
trailing whitespace or backtick. -/
theorem stripCodeFences_of_clean {s : List Char} (hne : s ≠ [])
    (hhead : ∀ c, s.head? = some c → pyWs c = false ∧ c ≠ backtick)
    (hlast : ∀ c, s.getLast? = some c → pyWs c = false ∧ c ≠ backtick) :
    stripCodeFences s = s := by
  have hh1 : ∀ c, s.head? = some c → pyWs c = false := fun c hc => (hhead c hc).1
  have hh2 : ∀ c, s.head? = some c → c ≠ backtick := fun c hc => (hhead c hc).2
  have hl1 : ∀ c, s.getLast? = some c → pyWs c = false := fun c hc => (hlast c hc).1
  have hl2 : ∀ c, s.getLast? = some c → c ≠ backtick := fun c hc => (hlast c hc).2
  have hp7 : (("```json".data).isPrefixOf s) = false := by
    rw [show "```json".data = backtick :: "``json".data from rfl]
    exact isPrefixOf_backtick_false hne hh2
  have hp3 : (("```".data).isPrefixOf s) = false := by
    rw [show "```".data = backtick :: "``".data from rfl]
    exact isPrefixOf_backtick_false hne hh2
  have hs3 : (("```".data).isSuffixOf s) = false := isSuffixOf_fence_false hne hl2
  simp only [stripCodeFences, pyStrip_eq_self hh1 hl1, hp7, hp3, hs3,
    Bool.false_eq_true, if_false]

/-- Helper: the trailing-fence removal and final strip of `stripCodeFences`
applied to what remains after the opening fence has been dropped. -/
theorem strip_after_fence_drop {s : List Char}
    (hhead : ∀ c, s.head? = some c → pyWs c = false)
    (hlast : ∀ c, s.getLast? = some c → pyWs c = false) :
    pyStrip
      (if (("```".data).isSuffixOf ('\n' :: (s ++ ['\n', backtick, backtick, backtick]))) then
        ('\n' :: (s ++ ['\n', backtick, backtick, backtick])).take
          (('\n' :: (s ++ ['\n', backtick, backtick, backtick])).length - 3)
      else '\n' :: (s ++ ['\n', backtick, backtick, backtick])) = s := by
  have hsuf : (("```".data).isSuffixOf
      ('\n' :: (s ++ ['\n', backtick, backtick, backtick]))) = true := by
    show (("```".data).reverse.isPrefixOf
      ('\n' :: (s ++ ['\n', backtick, backtick, backtick])).reverse) = true
    have h1 : ('\n' :: (s ++ ['\n', backtick, backtick, backtick])).reverse
        = backtick :: backtick :: backtick :: '\n' :: (s.reverse ++ ['\n']) := by
      simp
    rw [h1, show ("```".data).reverse = [backtick, backtick, backtick] from rfl]
    simp [List.isPrefixOf]
  rw [if_pos hsuf]
  have heq : ('\n' :: (s ++ ['\n', backtick, backtick, backtick]))
      = ('\n' :: (s ++ ['\n'])) ++ [backtick, backtick, backtick] := by simp
  rw [heq, List.take_left' (by simp)]
  rw [show ('\n' :: (s ++ ['\n'])) = ['\n'] ++ s ++ ['\n'] by simp]
  rw [pyStrip_ws_wrap (by intro c hc; simp at hc; subst hc; rfl)
    (by intro c hc; simp at hc; subst hc; rfl)]
  exact pyStrip_eq_self hhead hlast

/-- Helper: fence stripping recovers a clean payload from the plain fenced
wrapper. -/
theorem stripCodeFences_fenceWrap {s : List Char}
    (hhead : ∀ c, s.head? = some c → pyWs c = false)
    (hlast : ∀ c, s.getLast? = some c → pyWs c = false) :
    stripCodeFences (fenceWrap s) = s := by
  have e0 : pyStrip (fenceWrap s) = fenceWrap s := by
    refine pyStrip_eq_self ?_ ?_
    · intro c hc
      rw [show (fenceWrap s).head? = some backtick from rfl] at hc
      cases hc
      rfl
    · intro c hc
      rw [List.getLast?_eq_head?_reverse,
        show (fenceWrap s).reverse.head? = some backtick by simp [fenceWrap]] at hc
      cases hc
      rfl
  have step1 : stripCodeFences (fenceWrap s)
      = pyStrip
          (if (("```".data).isSuffixOf ('\n' :: (s ++ ['\n', backtick, backtick, backtick]))) then
            ('\n' :: (s ++ ['\n', backtick, backtick, backtick])).take
              (('\n' :: (s ++ ['\n', backtick, backtick, backtick])).length - 3)
          else '\n' :: (s ++ ['\n', backtick, backtick, backtick])) := by
    simp only [stripCodeFences, e0]
    rfl
  rw [step1]
  exact strip_after_fence_drop hhead hlast

/-- Helper: fence stripping recovers a clean payload from the json-tagged
fenced wrapper. -/
theorem stripCodeFences_jsonFenceWrap {s : List Char}
    (hhead : ∀ c, s.head? = some c → pyWs c = false)
    (hlast : ∀ c, s.getLast? = some c → pyWs c = false) :
    stripCodeFences (jsonFenceWrap s) = s := by
  have e0 : pyStrip (jsonFenceWrap s) = jsonFenceWrap s := by
    refine pyStrip_eq_self ?_ ?_
    · intro c hc
      rw [show (jsonFenceWrap s).head? = some backtick from rfl] at hc
      cases hc
      rfl
    · intro c hc
      rw [List.getLast?_eq_head?_reverse,
        show (jsonFenceWrap s).reverse.head? = some backtick by simp [jsonFenceWrap]] at hc
      cases hc
      rfl
  have step1 : stripCodeFences (jsonFenceWrap s)
      = pyStrip
          (if (("```".data).isSuffixOf ('\n' :: (s ++ ['\n', backtick, backtick, backtick]))) then
            ('\n' :: (s ++ ['\n', backtick, backtick, backtick])).take
              (('\n' :: (s ++ ['\n', backtick, backtick, backtick])).length - 3)
          else '\n' :: (s ++ ['\n', backtick, backtick, backtick])) := by
    simp only [stripCodeFences, e0]
    rfl
  rw [step1]
  exact strip_after_fence_drop hhead hlast

/-- C10: `parse_json_response` is a left inverse of JSON serialization
modulo markdown fencing: for any payload `s` that the external `json.loads`
collaborator parses back to the value `v` and that has the boundary shape
of serialized JSON (non-empty, no leading/trailing whitespace or backtick),
the function recovers `v` from the bare payload, the plain fenced wrapper
and the json-tagged fenced wrapper, each with arbitrary surrounding
whitespace. -/
theorem c10_parse_json_response_roundtrip (loads : List Char → Option Json)
    (v : Json) (s ws1 ws2 : List Char)
    (hserial : loads s = some v) (hne : s ≠ [])
    (hhead : ∀ c, s.head? = some c → pyWs c = false ∧ c ≠ backtick)
    (hlast : ∀ c, s.getLast? = some c → pyWs c = false ∧ c ≠ backtick)
    (h1 : ∀ c ∈ ws1, pyWs c = true) (h2 : ∀ c ∈ ws2, pyWs c = true) :
    parse_json_response loads (ws1 ++ s ++ ws2) = some v
    ∧ parse_json_response loads (ws1 ++ fenceWrap s ++ ws2) = some v
    ∧ parse_json_response loads (ws1 ++ jsonFenceWrap s ++ ws2) = some v := by
  have hh1 : ∀ c, s.head? = some c → pyWs c = false := fun c hc => (hhead c hc).1
  have hl1 : ∀ c, s.getLast? = some c → pyWs c = false := fun c hc => (hlast c hc).1
  refine ⟨?_, ?_, ?_⟩
  · rw [parse_json_response, stripCodeFences_ws_wrap h1 h2,
      stripCodeFences_of_clean hne hhead hlast, hserial]
  · rw [parse_json_response, stripCodeFences_ws_wrap h1 h2,
      stripCodeFences_fenceWrap hh1 hl1, hserial]
  · rw [parse_json_response, stripCodeFences_ws_wrap h1 h2,
      stripCodeFences_jsonFenceWrap hh1 hl1, hserial]

/-- Witness for `c10_parse_json_response_roundtrip` at the payload
`[450]`, the value being the one-element array holding 450. -/
theorem c10_parse_json_response_roundtrip_witness :
    parse_json_response
        (fun l => if l = "[450]".data then some (Json.arr [Json.num 450]) else none)
        ([' '] ++ "[450]".data ++ ['\n'])
      = some (Json.arr [Json.num 450])
    ∧ parse_json_response
        (fun l => if l = "[450]".data then some (Json.arr [Json.num 450]) else none)
        ([' '] ++ fenceWrap ("[450]".data) ++ ['\n'])
      = some (Json.arr [Json.num 450])
    ∧ parse_json_response
        (fun l => if l = "[450]".data then some (Json.arr [Json.num 450]) else none)
        ([' '] ++ jsonFenceWrap ("[450]".data) ++ ['\n'])
      = some (Json.arr [Json.num 450]) := by
  refine c10_parse_json_response_roundtrip _ _ _ [' '] ['\n'] ?_ ?_ ?_ ?_ ?_ ?_
  · simp
  · simp
  · intro c hc
    cases hc
    exact ⟨rfl, by decide⟩
  · intro c hc
    cases hc
    exact ⟨rfl, by decide⟩
  · intro c hc
    simp at hc
    subst hc
    rfl
  · intro c hc
    simp at hc
    subst hc
    rfl

end DealAgent
